import Mathlib

/-!
Verification of the AMARIOWORKS block-library repository.

The development shallowly embeds the two Python source files:
* `src/GRASSHOPPER/FURNITURE/parametric_cabinet.py` (namespace `Cabinet`)
* `src/scripts/BlockLibrary.py` (namespace `BlockLibrary`)

Real-valued quantities are modelled over `ℚ` (the source arithmetic is
closed-form rational arithmetic on the inputs).  Rhino geometry objects
(`rg.Box`, `rg.Plane`, `rg.Point3d`, `rg.Interval`) are modelled by the
structures below; a `rg.Box` is the set of points
`origin + a·xaxis + b·yaxis + c·zaxis` with `a b c` ranging over the three
intervals, where `zaxis` is the cross product of the plane's two axes,
exactly as in Rhino.
-/

namespace Cabinet

/-- Model of `Rhino.Geometry.Point3d`. -/
structure Point3 where
  x : ℚ
  y : ℚ
  z : ℚ
deriving DecidableEq

/-- Model of `Rhino.Geometry.Vector3d`. -/
structure Vec3 where
  x : ℚ
  y : ℚ
  z : ℚ
deriving DecidableEq

/-- Cross product of two vectors; Rhino uses it for the normal of a
`Plane(origin, xaxis, yaxis)`. -/
def cross (a b : Vec3) : Vec3 :=
  ⟨a.y * b.z - a.z * b.y, a.z * b.x - a.x * b.z, a.x * b.y - a.y * b.x⟩

/-- Model of `rg.Vector3d.XAxis`. -/
def XAxis : Vec3 := ⟨1, 0, 0⟩

/-- Model of `rg.Vector3d.YAxis`. -/
def YAxis : Vec3 := ⟨0, 1, 0⟩

/-- Model of `rg.Vector3d.ZAxis`. -/
def ZAxis : Vec3 := ⟨0, 0, 1⟩

/-- Model of `rg.Interval`. -/
structure Interval where
  lo : ℚ
  hi : ℚ
deriving DecidableEq

/-- Model of `rg.Plane(origin, xaxis, yaxis)`; the plane normal is
`cross xaxis yaxis`. -/
structure Plane where
  origin : Point3
  xaxis : Vec3
  yaxis : Vec3
deriving DecidableEq

/-- The plane normal, as Rhino computes it. -/
def Plane.zaxis (pl : Plane) : Vec3 := cross pl.xaxis pl.yaxis

/-- Model of `rg.Box(plane, dx, dy, dz)`: an oriented box whose points are
parameterised over the three intervals in plane coordinates. -/
structure Box where
  plane : Plane
  dx : Interval
  dy : Interval
  dz : Interval
deriving DecidableEq

/-- The world-space point of a box at plane coordinates `(a, b, c)`. -/
def Box.pt (B : Box) (a b c : ℚ) : Point3 :=
  ⟨B.plane.origin.x + a * B.plane.xaxis.x + b * B.plane.yaxis.x + c * B.plane.zaxis.x,
   B.plane.origin.y + a * B.plane.xaxis.y + b * B.plane.yaxis.y + c * B.plane.zaxis.y,
   B.plane.origin.z + a * B.plane.xaxis.z + b * B.plane.yaxis.z + c * B.plane.zaxis.z⟩

/-- A point lies in the interior of a box when its plane coordinates lie
strictly inside all three intervals. -/
def Box.interiorMem (B : Box) (q : Point3) : Prop :=
  ∃ a b c : ℚ,
    B.dx.lo < a ∧ a < B.dx.hi ∧
    B.dy.lo < b ∧ b < B.dy.hi ∧
    B.dz.lo < c ∧ c < B.dz.hi ∧
    q = B.pt a b c

/-- Two boxes overlap when some point is interior to both. -/
def overlaps (B C : Box) : Prop := ∃ q : Point3, B.interiorMem q ∧ C.interiorMem q

/-! Derived scalars of `create_parametric_cabinet`, with the source's names. -/

/-- Source line 31: `back_thickness = 0.5`. -/
def back_thickness : ℚ := 0.5

/-- Source line 32: `side_width = depth - 0.875`. -/
def side_width (depth : ℚ) : ℚ := depth - 0.875

/-- Source line 33: `door_gap = 0.125`. -/
def door_gap : ℚ := 0.125

/-- Source line 34: `top_gap = 0.125`. -/
def top_gap : ℚ := 0.125

/-- Source line 35: `bottom_gap = 0`. -/
def bottom_gap : ℚ := 0

/-- Source line 64: `back_width = width - 1.0`. -/
def back_width (width : ℚ) : ℚ := width - 1.0

/-- Source line 78: `bottom_width = width - 1.5`. -/
def bottom_width (width : ℚ) : ℚ := width - 1.5

/-- Source line 79: `bottom_depth = side_width - 1 - 0.0625`. -/
def bottom_depth (depth : ℚ) : ℚ := side_width depth - 1 - 0.0625

/-- Source line 92: `stretcher_width = 4.0`. -/
def stretcher_width : ℚ := 4.0

/-- Source line 120: `shelf_width = bottom_width - 0.0625`. -/
def shelf_width (width : ℚ) : ℚ := bottom_width width - 0.0625

/-- Source line 121: `shelf_depth = side_width - 1.25`. -/
def shelf_depth (depth : ℚ) : ℚ := side_width depth - 1.25

/-- Source line 124: `available_height = height - 1.5 - (shelf_count * thickness)`. -/
def available_height (height : ℚ) (shelf_count : ℕ) (thickness : ℚ) : ℚ :=
  height - 1.5 - (shelf_count : ℚ) * thickness

/-- Source line 125: `shelf_spacing = available_height / (shelf_count + 1)`. -/
def shelf_spacing (height : ℚ) (shelf_count : ℕ) (thickness : ℚ) : ℚ :=
  available_height height shelf_count thickness / ((shelf_count : ℚ) + 1)

/-- Source line 128 (loop index `i` starting at 0):
`z_pos = thickness + ((i + 1) * shelf_spacing) + (i * thickness)`. -/
def z_pos (height : ℚ) (shelf_count : ℕ) (thickness : ℚ) (i : ℕ) : ℚ :=
  thickness + ((i : ℚ) + 1) * shelf_spacing height shelf_count thickness + (i : ℚ) * thickness

/-- Source line 144: `door_height = height - top_gap - bottom_gap`. -/
def door_height (height : ℚ) : ℚ := height - top_gap - bottom_gap

/-- Source line 145: `door_width = (width - door_gap) / 2.0 - door_gap`. -/
def door_width (width : ℚ) : ℚ := (width - door_gap) / 2 - door_gap

/-- Source line 174: `hinge_z_positions = [3.0, height - 3.0]`. -/
def hinge_z_positions (height : ℚ) : List ℚ := [3.0, height - 3.0]

/-- Source line 189: `pull_from_edge = 4.625`. -/
def pull_from_edge : ℚ := 4.625

/-- Source line 190: `pull_from_top = 0.0625`. -/
def pull_from_top : ℚ := 0.0625

/-- Source line 193: `left_pull_x = width/2 - pull_from_edge - door_gap/2`. -/
def left_pull_x (width : ℚ) : ℚ := width / 2 - pull_from_edge - door_gap / 2

/-- Source line 199: `right_pull_x = width/2 + pull_from_edge + door_gap/2`. -/
def right_pull_x (width : ℚ) : ℚ := width / 2 + pull_from_edge + door_gap / 2

/-! The eight structural boxes, the shelf box, exactly as constructed in the
source (plane origin, plane axes, three intervals). -/

/-- Source lines 39-44: the left side panel box. -/
def left_side (depth height thickness : ℚ) : Box :=
  ⟨⟨⟨0, 0, 0⟩, XAxis, YAxis⟩,
   ⟨0, thickness⟩, ⟨0, side_width depth⟩, ⟨0, height⟩⟩

/-- Source lines 51-56: the right side panel box. -/
def right_side (width depth height thickness : ℚ) : Box :=
  ⟨⟨⟨width - thickness, 0, 0⟩, XAxis, YAxis⟩,
   ⟨0, thickness⟩, ⟨0, side_width depth⟩, ⟨0, height⟩⟩

/-- Source lines 65-71: the back panel box.  Note the plane axes are
`(XAxis, ZAxis)`, so the third interval (of length `height`) runs along the
plane normal `cross XAxis ZAxis = -YAxis`. -/
def back (width depth height : ℚ) : Box :=
  ⟨⟨⟨0.5, side_width depth - 1 + back_thickness, 0⟩, XAxis, ZAxis⟩,
   ⟨0, back_width width⟩, ⟨0, back_thickness⟩, ⟨0, height⟩⟩

/-- Source lines 80-85: the bottom panel box. -/
def bottom (width depth thickness : ℚ) : Box :=
  ⟨⟨⟨thickness, 0.0625, 0⟩, XAxis, YAxis⟩,
   ⟨0, bottom_width width⟩, ⟨0, bottom_depth depth⟩, ⟨0, thickness⟩⟩

/-- Source lines 93-99: the front stretcher box. -/
def front_stretcher (width height thickness : ℚ) : Box :=
  ⟨⟨⟨thickness, 4.0625, height - stretcher_width⟩, XAxis, YAxis⟩,
   ⟨0, bottom_width width⟩, ⟨0, thickness⟩, ⟨0, stretcher_width⟩⟩

/-- Source lines 106-112: the back stretcher box. -/
def back_stretcher (width depth height thickness : ℚ) : Box :=
  ⟨⟨⟨thickness, side_width depth - 1, height - stretcher_width⟩, XAxis, YAxis⟩,
   ⟨0, bottom_width width⟩, ⟨0, thickness⟩, ⟨0, stretcher_width⟩⟩

/-- Source lines 130-136: the box of shelf `i` (0-indexed loop variable). -/
def shelf (width depth height : ℚ) (shelf_count : ℕ) (thickness : ℚ) (i : ℕ) : Box :=
  ⟨⟨⟨thickness + 0.03125, 0.25, z_pos height shelf_count thickness i⟩, XAxis, YAxis⟩,
   ⟨0, shelf_width width⟩, ⟨0, shelf_depth depth⟩, ⟨0, thickness⟩⟩

/-- Source lines 148-154: the left door box. -/
def left_door (width height thickness : ℚ) : Box :=
  ⟨⟨⟨door_gap / 2, -0.875, bottom_gap⟩, XAxis, YAxis⟩,
   ⟨0, door_width width⟩, ⟨0, thickness⟩, ⟨0, door_height height⟩⟩

/-- Source lines 160-166: the right door box. -/
def right_door (width height thickness : ℚ) : Box :=
  ⟨⟨⟨width / 2 + door_gap / 2, -0.875, bottom_gap⟩, XAxis, YAxis⟩,
   ⟨0, door_width width⟩, ⟨0, thickness⟩, ⟨0, door_height height⟩⟩

/-- One entry of the returned `objects` list: a named brep (panel box) or a
named reference point. -/
inductive Entry
  | panel (nm : String) (b : Box)
  | point (nm : String) (p : Point3)
deriving DecidableEq

/-- The name attached to an entry (`sc.doc.Objects.Find(id).Attributes.Name`). -/
def entryName : Entry → String
  | .panel nm _ => nm
  | .point nm _ => nm

/-- Whether an entry is a panel (added with `AddBrep`). -/
def isPanel : Entry → Bool
  | .panel _ _ => true
  | .point _ _ => false

/-- Whether an entry is a reference point (added with `AddPoint`). -/
def isPoint : Entry → Bool
  | .panel _ _ => false
  | .point _ _ => true

/-- The `objects` list built by `create_parametric_cabinet` (source lines
28-233), in the source's append order: sides, back, bottom, stretchers,
shelves, doors, hinge points, pull points.  The source guards the shelf loop
with `if shelf_count > 0`, which is extensionally redundant because
`range 0` is empty. -/
def create_parametric_cabinet (width depth height : ℚ) (shelf_count : ℕ) (thickness : ℚ) :
    List Entry :=
  [Entry.panel "Side Left" (left_side depth height thickness),
   Entry.panel "Side Right" (right_side width depth height thickness),
   Entry.panel "Back" (back width depth height),
   Entry.panel "Bottom" (bottom width depth thickness),
   Entry.panel "Front Stretcher" (front_stretcher width height thickness),
   Entry.panel "Back Stretcher" (back_stretcher width depth height thickness)]
  ++ (List.range shelf_count).map (fun i =>
       Entry.panel ("Shelf " ++ toString (i + 1)) (shelf width depth height shelf_count thickness i))
  ++ [Entry.panel "Door Left" (left_door width height thickness),
      Entry.panel "Door Right" (right_door width height thickness)]
  ++ (hinge_z_positions height).enum.map (fun p =>
       Entry.point ("Hinge Left " ++ toString (p.1 + 1)) ⟨thickness, 1.46, p.2⟩)
  ++ (hinge_z_positions height).enum.map (fun p =>
       Entry.point ("Hinge Right " ++ toString (p.1 + 1)) ⟨width - thickness, 1.46, p.2⟩)
  ++ [Entry.point "Pull Left" ⟨left_pull_x width, -0.875, height - pull_from_top - top_gap⟩,
      Entry.point "Pull Right" ⟨right_pull_x width, -0.875, height - pull_from_top - top_gap⟩]

/-- Modelled from the spec: the repository contains no `ParameterValidator`
or `DimensionEngine` error layer, so validity of a `CabinetParameters` is
taken from spec sections 4.1 and 4.2: width/depth/height/thickness strictly
positive, thickness below half of width, depth and height, shelf count a
nonnegative integer (enforced by the type `ℕ`), and every derived extent and
spacing strictly positive. -/
def ValidParams (width depth height : ℚ) (shelf_count : ℕ) (thickness : ℚ) : Prop :=
  0 < width ∧ 0 < depth ∧ 0 < height ∧ 0 < thickness ∧
  thickness < width / 2 ∧ thickness < depth / 2 ∧ thickness < height / 2 ∧
  0 < side_width depth ∧ 0 < back_width width ∧
  0 < bottom_width width ∧ 0 < bottom_depth depth ∧
  0 < door_width width ∧ 0 < door_height height ∧
  (shelf_count = 0 ∨
    (0 < shelf_width width ∧ 0 < shelf_depth depth ∧
     0 < shelf_spacing height shelf_count thickness))

/-- Helper: the shelf z-formula is affine in the (0-indexed) shelf index. -/
theorem z_pos_affine (height : ℚ) (N : ℕ) (thickness : ℚ) (i : ℕ) :
    z_pos height N thickness i =
      thickness + shelf_spacing height N thickness +
        (i : ℚ) * (shelf_spacing height N thickness + thickness) := by
  simp only [z_pos]
  ring

/-- Helper: clearing the denominator in the shelf-spacing formula. -/
theorem shelf_spacing_key (height : ℚ) (N : ℕ) (thickness : ℚ) :
    ((N : ℚ) + 1) * shelf_spacing height N thickness =
      height - 1.5 - (N : ℚ) * thickness := by
  have hne : ((N : ℚ) + 1) ≠ 0 := by positivity
  simp only [shelf_spacing, available_height]
  field_simp

end Cabinet

namespace BlockLibrary

/-- Source line 14: `GITHUB_USER = "aarslanovic"`. -/
def GITHUB_USER : String := "aarslanovic"

/-- Source line 15: `REPO_NAME = "AMAR.IO_WORKSHOP"`. -/
def REPO_NAME : String := "AMAR.IO_WORKSHOP"

/-- Source line 16: `BRANCH = "main"`. -/
def BRANCH : String := "main"

/-- Source line 19: the catalog URL. -/
def CATALOG_URL : String :=
  "https://raw.githubusercontent.com/" ++ GITHUB_USER ++ "/" ++ REPO_NAME ++ "/" ++ BRANCH
    ++ "/catalog.json"

/-- Source line 20: the base URL for block files. -/
def BLOCKS_BASE_URL : String :=
  "https://raw.githubusercontent.com/" ++ GITHUB_USER ++ "/" ++ REPO_NAME ++ "/" ++ BRANCH
    ++ "/blocks/"

/-- One entry of `catalog.json`'s `blocks` array, with the fields
`insert_block` reads: `name`, `file` and the optional `id`. -/
structure BlockInfo where
  nm : String
  file : String
  id : Option String
deriving DecidableEq

/-- Source line 119: `block_id = block_info.get('id',
block_file.replace('/', '_').replace('.3dm', ''))`. -/
def block_id (info : BlockInfo) : String :=
  info.id.getD ((info.file.replace "/" "_").replace ".3dm" "")

/-- The ambient state `insert_block` interacts with: the document's existing
block names (`rs.BlockNames()`), the user's answer to the "Block Exists"
message box (`7` means No), the user's picked insertion point
(`rs.GetPoint`, `none` when cancelled), whether the network download
succeeds, and the cache directory path. -/
structure Env where
  existing_blocks : List String
  msg_box_result : Int
  get_point : Option Cabinet.Point3
  download_ok : Bool
  cache_dir : String
deriving DecidableEq

/-- Source line 141: `local_file = os.path.join(cache_dir,
block_file.replace('/', '_'))`. -/
def local_path (env : Env) (file : String) : String :=
  env.cache_dir ++ "/" ++ file.replace "/" "_"

/-- The externally visible actions `insert_block` can perform, in order:
a network download (`download_file`), inserting an already-defined block
(`rs.InsertBlock`), or importing a downloaded file as a new block
(the `_-Insert` command). -/
inductive Effect
  | download (url : String) (lp : String)
  | insertExisting (bid : String) (pt : Cabinet.Point3)
  | importInsert (lf : String) (bid : String) (pt : Cabinet.Point3)
deriving DecidableEq

/-- Source lines 114-165, `insert_block`, as the ordered trace of actions it
performs given the ambient state.  When the block id is already among the
document's block names it either returns (user answered No, or cancelled the
point pick) or inserts the existing block at the picked point; otherwise it
downloads the file and, on success and a picked point, imports it. -/
def insert_block (info : BlockInfo) (env : Env) : List Effect :=
  if block_id info ∈ env.existing_blocks then
    if env.msg_box_result = 7 then []
    else
      match env.get_point with
      | some pt => [Effect.insertExisting (block_id info) pt]
      | none => []
  else
    Effect.download (BLOCKS_BASE_URL ++ info.file) (local_path env info.file) ::
      (if env.download_ok then
        match env.get_point with
        | some pt => [Effect.importInsert (local_path env info.file) (block_id info) pt]
        | none => []
      else [])

end BlockLibrary

namespace Cabinet

/-- Claim C2 (code bug, evaluated at the failing input): at the source's
own default parameters (width 30, depth 24, height 30.5, thickness 3/4) the
back panel box and the bottom panel box share the interior point
`(1, 1/2, 1/4)`.  The back box is built on a plane with axes
`(XAxis, ZAxis)`, so its `height`-long interval runs along the plane normal
`-YAxis` and its `back_thickness` interval along `ZAxis`: instead of the
vertical rear panel described by the source's own comment and cut list
(`back_width × 0.5 × height`), the code produces a floor-level slab
spanning `y ∈ [22.625 - 30.5, 22.625]`, which intersects the bottom panel
(and the side panels and doors). -/
theorem C2_back_overlaps_bottom :
    overlaps (back 30 24 30.5) (bottom 30 24 (3/4)) := by
  refine ⟨⟨1, 1/2, 1/4⟩,
    ⟨1/2, 1/4, 177/8, ?_, ?_, ?_, ?_, ?_, ?_, ?_⟩,
    ⟨1/4, 7/16, 1/4, ?_, ?_, ?_, ?_, ?_, ?_, ?_⟩⟩ <;>
  norm_num [back, bottom, Box.pt, Plane.zaxis, cross, XAxis, YAxis, ZAxis,
    side_width, back_width, back_thickness, bottom_width, bottom_depth]

/-- Claim C3: for every cabinet, the left and right doors are built with the
identical `door_width`, and `2·door_width + 2·door_gap + door_gap = width`
exactly, where `door_gap` is the fixed `0.125` reveal. -/
theorem C3_door_symmetry (width height thickness : ℚ) :
    (left_door width height thickness).dx = (right_door width height thickness).dx ∧
    (left_door width height thickness).dx = ⟨0, door_width width⟩ ∧
    2 * door_width width + 2 * door_gap + door_gap = width := by
  refine ⟨rfl, rfl, ?_⟩
  simp only [door_width, door_gap]
  ring

/-- Claim C4: for every height, shelf count `N` and thickness,
`shelf_spacing = (height − 1.5 − N·thickness)/(N + 1)` and the interior
partition is exact: `(N + 1)·shelf_spacing + N·thickness = height − 1.5`. -/
theorem C4_shelf_partition_exact (height : ℚ) (N : ℕ) (thickness : ℚ) :
    shelf_spacing height N thickness =
      (height - 1.5 - (N : ℚ) * thickness) / ((N : ℚ) + 1) ∧
    ((N : ℚ) + 1) * shelf_spacing height N thickness + (N : ℚ) * thickness =
      height - 1.5 := by
  have hne : ((N : ℚ) + 1) ≠ 0 := by positivity
  constructor
  · simp [shelf_spacing, available_height]
  · simp only [shelf_spacing, available_height]
    field_simp

/-- Claim C6: for positive thickness and positive `shelf_spacing`, the shelf
z-positions `z_pos` are strictly increasing in the shelf index, the first
lies strictly above 0, the last lies strictly below the cabinet height, and
consecutive shelves differ by exactly `shelf_spacing` once the shelf
thickness is subtracted. -/
theorem C6_shelf_z_layout (height : ℚ) (N : ℕ) (thickness : ℚ)
    (ht : 0 < thickness) (hs : 0 < shelf_spacing height N thickness) :
    (∀ i j : ℕ, i < j → j < N →
      z_pos height N thickness i < z_pos height N thickness j) ∧
    (0 < N → 0 < z_pos height N thickness 0) ∧
    (0 < N → z_pos height N thickness (N - 1) < height) ∧
    (∀ i : ℕ, z_pos height N thickness (i + 1) - z_pos height N thickness i
      - thickness = shelf_spacing height N thickness) := by
  have key := shelf_spacing_key height N thickness
  refine ⟨?_, ?_, ?_, ?_⟩
  · intro i j hij _
    rw [z_pos_affine, z_pos_affine]
    have hij' : (i : ℚ) < (j : ℚ) := by exact_mod_cast hij
    have hpos := mul_pos (sub_pos.mpr hij')
      (add_pos hs ht)
    nlinarith [hpos]
  · intro _
    rw [z_pos_affine]
    push_cast
    linarith
  · intro hN
    have h1 : 1 ≤ N := hN
    rw [z_pos_affine]
    have hc : ((N - 1 : ℕ) : ℚ) = (N : ℚ) - 1 := by
      push_cast [h1]
      ring
    rw [hc]
    nlinarith [key, hs]
  · intro i
    rw [z_pos_affine, z_pos_affine]
    push_cast
    ring

/-- Claim C6 (witness). -/
theorem C6_shelf_z_layout_witness :
    (0 : ℚ) < 3/4 ∧ 0 < shelf_spacing 30.5 1 (3/4) ∧
    ((∀ i j : ℕ, i < j → j < 1 →
        z_pos 30.5 1 (3/4) i < z_pos 30.5 1 (3/4) j) ∧
      (0 < 1 → 0 < z_pos 30.5 1 (3/4) 0) ∧
      (0 < 1 → z_pos 30.5 1 (3/4) (1 - 1) < 30.5) ∧
      (∀ i : ℕ, z_pos 30.5 1 (3/4) (i + 1) - z_pos 30.5 1 (3/4) i
        - 3/4 = shelf_spacing 30.5 1 (3/4))) :=
  ⟨by norm_num,
   by norm_num [shelf_spacing, available_height],
   C6_shelf_z_layout 30.5 1 (3/4) (by norm_num)
     (by norm_num [shelf_spacing, available_height])⟩

/-- Claim C8: at the source's default input (width 30, depth 24, height
30.5, one shelf, thickness 3/4) the derived dimensions are
`side_width = 23.125`, `back_width = 29`, `bottom_width = 28.5`,
`bottom_depth = 22.0625` (within `0.0625` of the spec's `≈ 22.0`),
`door_width = 14.8125`, `door_height = 30.375`, and the returned assembly
holds exactly 1 shelf panel, 8 other (structural) panels, 6 reference
points of which 4 are hinges and 2 are pulls — 15 entries in total. -/
theorem C8_concrete_scenario :
    side_width 24 = 23.125 ∧
    back_width 30 = 29 ∧
    bottom_width 30 = 28.5 ∧
    bottom_depth 24 = 22.0625 ∧
    |bottom_depth 24 - 22| ≤ 0.0625 ∧
    door_width 30 = 14.8125 ∧
    door_height 30.5 = 30.375 ∧
    ((create_parametric_cabinet 30 24 30.5 1 (3/4)).countP
      (fun e => isPanel e && ((entryName e).take 5 == "Shelf"))) = 1 ∧
    ((create_parametric_cabinet 30 24 30.5 1 (3/4)).countP
      (fun e => isPanel e && !((entryName e).take 5 == "Shelf"))) = 8 ∧
    ((create_parametric_cabinet 30 24 30.5 1 (3/4)).countP isPoint) = 6 ∧
    ((create_parametric_cabinet 30 24 30.5 1 (3/4)).countP
      (fun e => isPoint e && ((entryName e).take 5 == "Hinge"))) = 4 ∧
    ((create_parametric_cabinet 30 24 30.5 1 (3/4)).countP
      (fun e => isPoint e && ((entryName e).take 4 == "Pull"))) = 2 ∧
    (create_parametric_cabinet 30 24 30.5 1 (3/4)).length = 15 := by
  refine ⟨?_, ?_, ?_, ?_, ?_, ?_, ?_, by decide, by decide, by decide, by decide,
    by decide, rfl⟩ <;>
  norm_num [side_width, back_width, bottom_width, bottom_depth, door_width,
    door_height, door_gap, top_gap, bottom_gap, abs_le]

/-- Claim C7 (counterexample): there is no single parameter-independent
margin `m` with `bottom_width + 2·thickness = width − m` for all valid
parameters: thickness `3/4` forces `m = 0` while thickness `1/2` forces
`m = 1/2`. -/
theorem C7_counterexample :
    ¬ ∃ m : ℚ, ∀ (width depth height : ℚ) (N : ℕ) (thickness : ℚ),
      ValidParams width depth height N thickness →
      bottom_width width + 2 * thickness = width - m := by
  rintro ⟨m, hm⟩
  have h1 := hm 30 24 30.5 1 (3/4) (by
    norm_num [ValidParams, side_width, back_width, bottom_width, bottom_depth,
      door_width, door_height, door_gap, top_gap, bottom_gap, shelf_width,
      shelf_depth, shelf_spacing, available_height])
  have h2 := hm 30 24 30.5 1 (1/2) (by
    norm_num [ValidParams, side_width, back_width, bottom_width, bottom_depth,
      door_width, door_height, door_gap, top_gap, bottom_gap, shelf_width,
      shelf_depth, shelf_spacing, available_height])
  rw [bottom_width] at h1 h2
  linarith

/-- Claim C1 (counterexample): the input `width = 30, depth = 24,
height = 30.5, shelf_count = 1, thickness = 30` has `thickness = width`,
hence is invalid, yet `create_parametric_cabinet` still produces a full
15-entry assembly — generation does not fail. -/
theorem C1_counterexample :
    ¬ ValidParams 30 24 30.5 1 30 ∧
    (create_parametric_cabinet 30 24 30.5 1 30).length = 15 := by
  constructor
  · intro hv
    have := hv.2.2.2.2.1
    norm_num at this
  · rfl

/-- Claim C1 (amended): the engine performs no input validation at all: even
for invalid parameters (such as `thickness = width`) it produces a complete
`14 + shelf_count`-entry assembly instead of failing; no `InvalidParameter`
or `DegenerateGeometry` failure path exists in the code. -/
theorem C1_no_validation (width depth height : ℚ) (N : ℕ) (thickness : ℚ)
    (_hv : ¬ ValidParams width depth height N thickness) :
    (create_parametric_cabinet width depth height N thickness).length = 14 + N := by
  simp only [create_parametric_cabinet, List.length_append, List.length_map,
    List.length_cons, List.length_range, List.enum_length, hinge_z_positions,
    List.length_nil]
  omega

/-- Claim C1 (witness for the amended theorem). -/
theorem C1_no_validation_witness :
    ¬ ValidParams 30 24 30.5 1 30 ∧
    (create_parametric_cabinet 30 24 30.5 1 30).length = 14 + 1 :=
  ⟨fun hv => by have := hv.2.2.2.2.1; norm_num at this,
   C1_no_validation 30 24 30.5 1 30
     (fun hv => by have := hv.2.2.2.2.1; norm_num at this)⟩

/-- Claim C5 (counterexample): the parameters `width = 30, depth = 24,
height = 2, shelf_count = 0, thickness = 3/4` are valid (all range checks
and all derived extents pass), yet the hinge Z-position `3.0` does not lie
in the open interval `(0, height) = (0, 2)`. -/
theorem C5_counterexample :
    ValidParams 30 24 2 0 (3/4) ∧
    ∃ z ∈ hinge_z_positions 2, ¬ (0 < z ∧ z < 2) := by
  constructor
  · norm_num [ValidParams, side_width, back_width, bottom_width, bottom_depth,
      door_width, door_height, door_gap, top_gap, bottom_gap]
  · exact ⟨3, by norm_num [hinge_z_positions], by norm_num⟩

/-- Claim C5 (amended): for every valid `CabinetParameters` whose height
exceeds 3, both hinge Z-positions (`3.0` and `height − 3.0`) lie strictly
within the open interval `(0, height)`. -/
theorem C5_hinge_z_in_range (width depth height : ℚ) (N : ℕ) (thickness : ℚ)
    (_hv : ValidParams width depth height N thickness) (hh : 3 < height) :
    ∀ z ∈ hinge_z_positions height, 0 < z ∧ z < height := by
  intro z hz
  simp only [hinge_z_positions, List.mem_cons, List.mem_singleton,
    List.not_mem_nil, or_false] at hz
  rcases hz with rfl | rfl
  · exact ⟨by norm_num, by linarith⟩
  · constructor <;> linarith

/-- Claim C5 (witness for the amended theorem). -/
theorem C5_hinge_z_in_range_witness :
    ValidParams 30 24 30.5 1 (3/4) ∧ (3 : ℚ) < 30.5 ∧
    ∀ z ∈ hinge_z_positions 30.5, 0 < z ∧ z < 30.5 :=
  ⟨by norm_num [ValidParams, side_width, back_width, bottom_width, bottom_depth,
      door_width, door_height, door_gap, top_gap, bottom_gap, shelf_width,
      shelf_depth, shelf_spacing, available_height],
   by norm_num,
   C5_hinge_z_in_range 30 24 30.5 1 (3/4)
     (by norm_num [ValidParams, side_width, back_width, bottom_width, bottom_depth,
        door_width, door_height, door_gap, top_gap, bottom_gap, shelf_width,
        shelf_depth, shelf_spacing, available_height])
     (by norm_num)⟩

/-- Claim C10: for every valid input with shelf count `N`, the list
returned by `create_parametric_cabinet` has length exactly `14 + N`, and its
entries are, in this fixed insertion order: the 6 carcase panels (two
sides, back, bottom, two stretchers), the `N` shelves, the 2 doors, the 4
hinge points, and the 2 pull points. -/
theorem C10_assembly_length_order (width depth height : ℚ) (N : ℕ) (thickness : ℚ)
    (_hv : ValidParams width depth height N thickness) :
    (create_parametric_cabinet width depth height N thickness).length = 14 + N ∧
    (create_parametric_cabinet width depth height N thickness).map entryName =
      ["Side Left", "Side Right", "Back", "Bottom", "Front Stretcher", "Back Stretcher"]
      ++ (List.range N).map (fun i => "Shelf " ++ toString (i + 1))
      ++ ["Door Left", "Door Right", "Hinge Left 1", "Hinge Left 2",
          "Hinge Right 1", "Hinge Right 2", "Pull Left", "Pull Right"] := by
  constructor
  · simp only [create_parametric_cabinet, List.length_append, List.length_map,
      List.length_cons, List.length_range, List.enum_length, hinge_z_positions,
      List.length_nil]
    omega
  · simp +decide [create_parametric_cabinet, entryName, hinge_z_positions,
      List.enum, List.map_append, List.map_map, Function.comp_def]

/-- Claim C10 (witness). -/
theorem C10_assembly_length_order_witness :
    ValidParams 30 24 30.5 1 (3/4) ∧
    ((create_parametric_cabinet 30 24 30.5 1 (3/4)).length = 14 + 1 ∧
      (create_parametric_cabinet 30 24 30.5 1 (3/4)).map entryName =
        ["Side Left", "Side Right", "Back", "Bottom", "Front Stretcher", "Back Stretcher"]
        ++ (List.range 1).map (fun i => "Shelf " ++ toString (i + 1))
        ++ ["Door Left", "Door Right", "Hinge Left 1", "Hinge Left 2",
            "Hinge Right 1", "Hinge Right 2", "Pull Left", "Pull Right"]) :=
  ⟨by norm_num [ValidParams, side_width, back_width, bottom_width, bottom_depth,
      door_width, door_height, door_gap, top_gap, bottom_gap, shelf_width,
      shelf_depth, shelf_spacing, available_height],
   C10_assembly_length_order 30 24 30.5 1 (3/4)
     (by norm_num [ValidParams, side_width, back_width, bottom_width, bottom_depth,
        door_width, door_height, door_gap, top_gap, bottom_gap, shelf_width,
        shelf_depth, shelf_spacing, available_height])⟩

/-- Claim C7 (amended): `bottom_width + 2·thickness = width − (1.5 −
2·thickness)`; the margin `1.5 − 2·thickness` depends on the thickness (it
is `0` exactly at the standard thickness `0.75`), so only
`bottom_width = width − 1.5` is parameter-independent. -/
theorem C7_bottom_margin (width thickness : ℚ) :
    bottom_width width + 2 * thickness = width - (1.5 - 2 * thickness) ∧
    bottom_width width = width - 1.5 := by
  constructor
  · simp only [bottom_width]; ring
  · rfl

end Cabinet

namespace BlockLibrary

/-- Claim C9: when a block's identifier is already among the document's
existing block names, `insert_block` performs no download — no `download`
action appears in its trace — and it either inserts the existing block at
the user-chosen point or returns without change. -/
theorem C9_no_redownload (info : BlockInfo) (env : Env)
    (hex : block_id info ∈ env.existing_blocks) :
    (∀ url lp, Effect.download url lp ∉ insert_block info env) ∧
    (insert_block info env = [] ∨
      ∃ pt : Cabinet.Point3, env.get_point = some pt ∧
        insert_block info env = [Effect.insertExisting (block_id info) pt]) := by
  unfold insert_block
  rw [if_pos hex]
  by_cases h7 : env.msg_box_result = 7
  · rw [if_pos h7]
    exact ⟨fun url lp => List.not_mem_nil _, Or.inl rfl⟩
  · rw [if_neg h7]
    cases hp : env.get_point with
    | none => exact ⟨fun url lp => List.not_mem_nil _, Or.inl rfl⟩
    | some pt =>
        refine ⟨fun url lp hmem => ?_, Or.inr ⟨pt, rfl, rfl⟩⟩
        simp only [List.mem_singleton] at hmem
        exact Effect.noConfusion hmem

/-- Claim C9 (witness): a block with id `"chair"` already present in a
document whose block names are `["chair"]`. -/
theorem C9_no_redownload_witness :
    block_id ⟨"Chair", "furniture/chair.3dm", some "chair"⟩ ∈
      (Env.mk ["chair"] 6 (some ⟨0, 0, 0⟩) true "cache").existing_blocks ∧
    ((∀ url lp, Effect.download url lp ∉
        insert_block ⟨"Chair", "furniture/chair.3dm", some "chair"⟩
          (Env.mk ["chair"] 6 (some ⟨0, 0, 0⟩) true "cache")) ∧
      (insert_block ⟨"Chair", "furniture/chair.3dm", some "chair"⟩
          (Env.mk ["chair"] 6 (some ⟨0, 0, 0⟩) true "cache") = [] ∨
        ∃ pt : Cabinet.Point3,
          (Env.mk ["chair"] 6 (some ⟨0, 0, 0⟩) true "cache").get_point = some pt ∧
          insert_block ⟨"Chair", "furniture/chair.3dm", some "chair"⟩
            (Env.mk ["chair"] 6 (some ⟨0, 0, 0⟩) true "cache") =
            [Effect.insertExisting
              (block_id ⟨"Chair", "furniture/chair.3dm", some "chair"⟩) pt])) :=
  ⟨by decide,
   C9_no_redownload ⟨"Chair", "furniture/chair.3dm", some "chair"⟩
     (Env.mk ["chair"] 6 (some ⟨0, 0, 0⟩) true "cache") (by decide)⟩

end BlockLibrary
